import Mathlib

/-!
Verification development for the professional-management-app repository
(src/app.py, the monolithic Flask application, and src/auth.py, a blueprint
variant of the login route).  The data model and each route handler relevant
to the claims are embedded shallowly: database rows become structures, the
user table becomes a `List User`, request handlers become pure functions from
the store and the form data to an explicit outcome value, and the external
collaborators (werkzeug password hashing, the flask-login session binding)
are modelled at the interface the source code uses.
-/

namespace Mgmt

/-- A persisted user row, following the column declarations of `class User`
in src/app.py lines 22-32: id, username, email, password_hash, role
(a free-form string, default `client`), the three profile fields, a creation
timestamp (modelled as a natural number), and the `is_active` column of
line 32.  Note: at Python class level that column is shadowed by the
`is_active` property of lines 52-54; the field here models the declared
stored flag, which is also the shape `models.User` (imported by src/auth.py
from a `models` module that is not part of the repository) exposes per
spec section 3. -/
structure User where
  id : Nat
  username : String
  email : String
  password_hash : String
  role : String
  first_name : Option String
  last_name : Option String
  phone : Option String
  created_at : Nat
  is_active : Bool
deriving DecidableEq, Repr

/-- Model of the external werkzeug `generate_password_hash`: an injective
one-way encoding, opaque to callers (spec section 4.1: the stored hash format
is opaque; verification succeeds exactly on the password the hash was
generated from). -/
def generate_password_hash (p : String) : String :=
  String.append ("pbkdf2-sha256$") p

/-- Model of the external werkzeug `check_password_hash`: true exactly when
the stored hash was generated from the given plaintext. -/
def check_password_hash (h p : String) : Bool :=
  h = generate_password_hash p

/-- `User.set_password` (src/app.py lines 34-35). -/
def set_password (u : User) (p : String) : User :=
  { u with password_hash := generate_password_hash p }

/-- `User.check_password` (src/app.py lines 37-39). -/
def check_password (u : User) (p : String) : Bool :=
  check_password_hash u.password_hash p

/-- The flask-login user loader (src/app.py lines 82-84):
`load_user(user_id)` returns `User.query.get(int(user_id))`, the stored row
with that primary key, or `None`.  `get_id` returns `str(self.id)` and the
loader applies `int`, so the session token is modelled directly as the
numeric id.  No condition other than the primary-key match is applied. -/
def load_user (store : List User) (user_id : Nat) : Option User :=
  store.find? (fun u => u.id = user_id)

/-- The `is_active` property of src/app.py lines 52-54: its body is
`return self.is_active`, which re-invokes the very same property.  The
call-by-value recursion is modelled with explicit fuel, one unit per
re-invocation; the definition has no base case other than fuel exhaustion,
so the question is whether any amount of fuel produces a value. -/
def is_active_property (u : User) : Nat → Option Bool
  | 0 => none
  | n + 1 => is_active_property u n

/-- Route identifiers for every redirect target appearing in the two source
files: `url_for('login')`, `url_for('index')`, `url_for('admin_dashboard')`,
`url_for('client_dashboard')`, `url_for('admin_clients')`,
`url_for('client_profile')` in src/app.py, and `url_for('auth.login')`,
`url_for('dashboard')`, `url_for('admin.dashboard')`,
`url_for('client.dashboard')` in src/auth.py.  The blueprint endpoints
`admin.dashboard` and `client.dashboard` denote the admin and client
dashboards and are identified with `AdminDashboard` and `ClientDashboard`;
the role-independent `dashboard` endpoint of src/auth.py line 11 matches no
endpoint of either file and is kept distinct. -/
inductive RouteId where
  | Index
  | Login
  | AuthLogin
  | Dashboard
  | AdminDashboard
  | AdminClients
  | AddClient
  | ClientDashboard
  | ClientProfile
deriving DecidableEq, Repr

/-- A flash notification: `flash(message, category)`. -/
structure FlashMsg where
  message : String
  category : String
deriving DecidableEq, Repr

/-- Outcome of a POST to a login route: the session binding established by
`login_user` (the bound identity's id), the flash notifications emitted, and
the redirect target.  `login_user` is the Session Manager's `establish`
operation of spec section 4.2 (an external flask-login collaborator): it
binds the session to the identity's id. -/
structure LoginOutcome where
  session : Option Nat
  flashes : List FlashMsg
  redirect_to : RouteId
deriving DecidableEq, Repr

/-- The POST branch of the monolithic login route, src/app.py lines 99-117,
for an anonymous visitor: look up the user by email
(`User.query.filter_by(email=email).first()`); if no user is found or the
password does not verify, flash the generic message and redirect back to the
login page; otherwise call `login_user`, flash success, and redirect by
role.  There is no test of the active flag on this path. -/
def app_login_post (store : List User) (email password : String) : LoginOutcome :=
  match store.find? (fun u => u.email = email) with
  | none =>
      { session := none
        flashes := [{ message := "Please check your login details and try again.", category := "error" }]
        redirect_to := RouteId.Login }
  | some user =>
      if check_password_hash user.password_hash password = false then
        { session := none
          flashes := [{ message := "Please check your login details and try again.", category := "error" }]
          redirect_to := RouteId.Login }
      else
        { session := some user.id
          flashes := [{ message := "Logged in successfully!", category := "success" }]
          redirect_to := if user.role = "admin" then RouteId.AdminDashboard else RouteId.ClientDashboard }

/-- The POST branch of the blueprint login route, src/auth.py lines 13-35,
for an anonymous visitor: identical lookup and password check, then — unlike
the monolithic route — `if not user.is_active` flashes the deactivation
message and redirects back to the login page before any session is
established; only then `login_user`, success flash, and redirect by role. -/
def auth_login_post (store : List User) (email password : String) : LoginOutcome :=
  match store.find? (fun u => u.email = email) with
  | none =>
      { session := none
        flashes := [{ message := "Please check your login details and try again.", category := "error" }]
        redirect_to := RouteId.AuthLogin }
  | some user =>
      if check_password_hash user.password_hash password = false then
        { session := none
          flashes := [{ message := "Please check your login details and try again.", category := "error" }]
          redirect_to := RouteId.AuthLogin }
      else if user.is_active = false then
        { session := none
          flashes := [{ message := "Your account has been deactivated.", category := "error" }]
          redirect_to := RouteId.AuthLogin }
      else
        { session := some user.id
          flashes := [{ message := "Logged in successfully!", category := "success" }]
          redirect_to := if user.role = "admin" then RouteId.AdminDashboard else RouteId.ClientDashboard }

/-- Redirect target when an already-authenticated identity revisits the
monolithic login route, src/app.py lines 93-97: `admin_dashboard` when the
current user's role is `admin`, `client_dashboard` otherwise. -/
def app_login_revisit_redirect (u : User) : RouteId :=
  if u.role = "admin" then RouteId.AdminDashboard else RouteId.ClientDashboard

/-- Redirect target when an already-authenticated identity revisits the
blueprint login route, src/auth.py lines 10-11: `redirect(url_for('dashboard'))`,
with no inspection of the user's role. -/
def auth_login_revisit_redirect (_u : User) : RouteId :=
  RouteId.Dashboard

/-- Response of a protected GET route: the flash notifications emitted and
either a redirect or a rendered template. -/
inductive RouteAction where
  | redirect (target : RouteId)
  | page (template : String)
deriving DecidableEq, Repr

/-- A route's visible response: flashes plus the action. -/
structure RouteResponse where
  flashes : List FlashMsg
  action : RouteAction
deriving DecidableEq, Repr

/-- The response a denied admin-only route produces (src/app.py lines
133-135, 155-157, 165-167): `flash('Access denied.', 'error')` and a
redirect to the client dashboard. -/
def access_denied_response : RouteResponse :=
  { flashes := [{ message := "Access denied.", category := "error" }]
    action := RouteAction.redirect RouteId.ClientDashboard }

/-- GET /admin/dashboard (src/app.py lines 130-150): deny unless the current
user's role is `admin`, else render the dashboard template. -/
def admin_dashboard_route (u : User) : RouteResponse :=
  if u.role ≠ "admin" then access_denied_response
  else { flashes := [], action := RouteAction.page ("admin/dashboard.html") }

/-- GET /admin/clients (src/app.py lines 152-160): same guard, then render
the client list. -/
def admin_clients_route (u : User) : RouteResponse :=
  if u.role ≠ "admin" then access_denied_response
  else { flashes := [], action := RouteAction.page ("admin/clients.html") }

/-- GET /admin/add-client (src/app.py lines 162-167, 192): same guard, then
render the add-client form. -/
def add_client_get_route (u : User) : RouteResponse :=
  if u.role ≠ "admin" then access_denied_response
  else { flashes := [], action := RouteAction.page ("admin/add_client.html") }

/-- GET /client/dashboard (src/app.py lines 195-210): an admin is redirected
to the admin dashboard; otherwise the client dashboard is rendered. -/
def client_dashboard_route (u : User) : RouteResponse :=
  if u.role = "admin" then { flashes := [], action := RouteAction.redirect RouteId.AdminDashboard }
  else { flashes := [], action := RouteAction.page ("client/dashboard.html") }

/-- The Role Router of spec section 4.4, stated from the spec's words for
comparison with the redirect computations of the source: `landingFor(role)`
maps `admin` to the admin dashboard and `client` to the client dashboard. -/
def landingFor (role : String) : RouteId :=
  if role = "admin" then RouteId.AdminDashboard else RouteId.ClientDashboard

/-- A client row as constructed by the add-client handler (src/app.py lines
56-67 for the columns, lines 177-185 for the constructor call): the six
fields read from the form plus `admin_id`.  The remaining columns (id,
status, timestamps) are database-assigned defaults never touched by the
handler and are omitted. -/
structure Client where
  company_name : Option String
  contact_person : Option String
  email : Option String
  phone : Option String
  address : Option String
  industry : Option String
  admin_id : Nat
deriving DecidableEq, Repr

/-- The POST branch of /admin/add-client (src/app.py lines 169-188), after
the role guard has allowed: read the six form fields with
`request.form.get` (a form is modelled as a partial map from field name to
value) and construct the row with `admin_id=current_user.id`. -/
def add_client_post (u : User) (form : String → Option String) : Client :=
  { company_name := form ("company_name")
    contact_person := form ("contact_person")
    email := form ("email")
    phone := form ("phone")
    address := form ("address")
    industry := form ("industry")
    admin_id := u.id }

/-- The update applied to one user row by the POST branch of /client/profile
(src/app.py lines 215-218): on the row of the invoking identity set
first_name, last_name and phone from the form; every other row is left as
it is. -/
def profile_updater (uid : Nat) (form : String → Option String) (u : User) : User :=
  if u.id = uid then
    { u with first_name := form ("first_name")
             last_name := form ("last_name")
             phone := form ("phone") }
  else u

/-- Effect of the POST branch of /client/profile on the user table:
`current_user.first_name = ...; current_user.last_name = ...;
current_user.phone = ...; db.session.commit()` updates the invoking
identity's own row in place (ids are unique primary keys). -/
def client_profile_post (users : List User) (uid : Nat) (form : String → Option String) : List User :=
  users.map (profile_updater uid form)

/-- GET|POST /client/profile (src/app.py lines 212-224): the route carries
only `@login_required` — there is no role test anywhere in its body — and on
POST it performs the profile update, flashes success and redirects back to
the profile page. -/
def client_profile_route (u : User) (users : List User) (form : String → Option String) :
    RouteResponse × List User :=
  ({ flashes := [{ message := "Profile updated successfully!", category := "success" }]
     action := RouteAction.redirect RouteId.ClientProfile },
   client_profile_post users u.id form)

/-- The seeded administrator created by `initialize_database` (src/app.py
lines 234-241): username `admin`, the reserved email, the `System
Administrator` profile, role `admin`, password `admin123` via
`set_password`, and the column defaults for the remaining fields (`phone`
absent, `is_active` default true per the line-32 column declaration, the
creation timestamp a database default modelled as 0).  The primary key is
database-assigned and passed in as `fid`. -/
def seeded_admin (fid : Nat) : User :=
  set_password
    { id := fid
      username := "admin"
      email := "admin@company.com"
      password_hash := ""
      role := "admin"
      first_name := some ("System")
      last_name := some ("Administrator")
      phone := none
      created_at := 0
      is_active := true }
    ("admin123")

/-- `initialize_database` (src/app.py lines 227-244) restricted to its
effect on the user table: if no user with email `admin@company.com` exists
(`User.query.filter_by(email=...).first()` is `None`), insert the seeded
administrator; otherwise do nothing.  (`db.create_all()` is schema creation,
outside the row-level model.) -/
def initialize_database (fid : Nat) (store : List User) : List User :=
  match store.find? (fun u => u.email = "admin@company.com") with
  | some _ => store
  | none => store ++ [seeded_admin fid]

/-- The whole application state the routing surface acts on: the user table,
the client table, and the session binding (at most one identity id). -/
structure AppState where
  users : List User
  clients : List Client
  session : Option Nat

/-- One operation of the routing surface of src/app.py: the POST and GET
endpoints enumerated in spec section 6.  GET views render without mutating;
`uid` is the id of the authenticated identity invoking a protected route. -/
inductive Operation where
  | loginPost (email password : String)
  | logout
  | viewIndex
  | viewAdminDashboard (uid : Nat)
  | viewAdminClients (uid : Nat)
  | addClientPost (uid : Nat) (form : String → Option String)
  | viewClientDashboard (uid : Nat)
  | clientProfilePost (uid : Nat) (form : String → Option String)

/-- State transition of each routing-surface operation, from the handler
bodies in src/app.py: login mutates only the session binding, logout clears
it, the dashboard and list views are read-only, add-client appends a client
row when the invoker is an admin, and the profile POST applies
`client_profile_post` to the user table. -/
def step (s : AppState) : Operation → AppState
  | Operation.loginPost email password =>
      { s with session := (app_login_post s.users email password).session }
  | Operation.logout => { s with session := none }
  | Operation.viewIndex => s
  | Operation.viewAdminDashboard _ => s
  | Operation.viewAdminClients _ => s
  | Operation.addClientPost uid form =>
      match s.users.find? (fun u => u.id = uid) with
      | some u =>
          if u.role = "admin" then { s with clients := s.clients ++ [add_client_post u form] }
          else s
      | none => s
  | Operation.viewClientDashboard _ => s
  | Operation.clientProfilePost uid form =>
      { s with users := client_profile_post s.users uid form }

/-- A deactivated client-role identity with valid stored credentials, used
as the concrete failing input for the session-resolution and login claims. -/
def deactivated_user : User :=
  { id := 5
    username := "dormant"
    email := "dormant@example.com"
    password_hash := generate_password_hash ("pw")
    role := "client"
    first_name := none
    last_name := none
    phone := none
    created_at := 0
    is_active := false }

/-- C1: the flask-login user loader of src/app.py lines 82-84 applies no
condition other than the primary-key match, so resolving a session bound to
a deactivated identity yields the stored identity itself — with its active
flag false — and not Anonymous (`none`). -/
theorem C1_resolve_returns_deactivated_identity :
    load_user [deactivated_user] 5 = some deactivated_user ∧
    deactivated_user.is_active = false := by
  exact ⟨rfl, rfl⟩

/-- C2: the `is_active` property of src/app.py lines 52-54 re-invokes itself
with no base case: for every user record and every amount of fuel the
evaluation produces no value, so no total reading of the stored record
through this property exists. -/
theorem C2_is_active_property_diverges (u : User) (n : Nat) :
    is_active_property u n = none := by
  induction n with
  | zero => rfl
  | succ n ih => exact ih

/-- C3: at the failing input — credentials that verify against a stored
identity whose active flag is false — the monolithic login route of
src/app.py establishes a session and redirects to the role dashboard with a
success flash, while the blueprint login route of src/auth.py (the conduct
the claim describes) refuses with the deactivation message and establishes
no session. -/
theorem C3_app_login_admits_deactivated_identity :
    app_login_post [deactivated_user] ("dormant@example.com") ("pw") =
      { session := some 5
        flashes := [{ message := "Logged in successfully!", category := "success" }]
        redirect_to := RouteId.ClientDashboard } ∧
    auth_login_post [deactivated_user] ("dormant@example.com") ("pw") =
      { session := none
        flashes := [{ message := "Your account has been deactivated.", category := "error" }]
        redirect_to := RouteId.AuthLogin } := by
  exact ⟨rfl, rfl⟩

/-- C7: with an unregistered email, or with a registered email and a
password that does not verify, both login routes establish no session and
redirect back to their login page with the single generic notification —
the response is the same fixed value in both cases, so it reveals nothing
about which field was wrong. -/
theorem C7_invalid_credentials_generic (store : List User) (email password : String)
    (h : store.find? (fun u => u.email = email) = none ∨
      ∃ u, store.find? (fun u => u.email = email) = some u ∧
        check_password_hash u.password_hash password = false) :
    app_login_post store email password =
      { session := none
        flashes := [{ message := "Please check your login details and try again.", category := "error" }]
        redirect_to := RouteId.Login } ∧
    auth_login_post store email password =
      { session := none
        flashes := [{ message := "Please check your login details and try again.", category := "error" }]
        redirect_to := RouteId.AuthLogin } := by
  rcases h with h | ⟨u, hu, hpw⟩
  · constructor <;> simp [app_login_post, auth_login_post, h]
  · constructor <;> simp [app_login_post, auth_login_post, hu, hpw]

/-- C7 witness: the unregistered-email case on a concrete (empty) store. -/
theorem C7_invalid_credentials_generic_witness :
    app_login_post [] ("nobody@example.com") ("pw") =
      { session := none
        flashes := [{ message := "Please check your login details and try again.", category := "error" }]
        redirect_to := RouteId.Login } ∧
    auth_login_post [] ("nobody@example.com") ("pw") =
      { session := none
        flashes := [{ message := "Please check your login details and try again.", category := "error" }]
        redirect_to := RouteId.AuthLogin } :=
  C7_invalid_credentials_generic [] ("nobody@example.com") ("pw") (Or.inl rfl)

/-- An active client-role identity used as a concrete guard-check input. -/
def client_user : User :=
  { id := 9
    username := "carol"
    email := "carol@example.com"
    password_hash := generate_password_hash ("pw2")
    role := "client"
    first_name := none
    last_name := none
    phone := none
    created_at := 0
    is_active := true }

/-- An active admin identity with id 7 used as a concrete input for the
ownership and routing witnesses. -/
def admin_user7 : User :=
  { id := 7
    username := "boss"
    email := "boss@example.com"
    password_hash := generate_password_hash ("pw3")
    role := "admin"
    first_name := none
    last_name := none
    phone := none
    created_at := 0
    is_active := true }

/-- C4: over the two-role set, each admin-only route denies exactly the
identities whose role differs from `admin` — with the access-denied flash
and a redirect to the client dashboard, never the requested admin page —
the client dashboard turns away exactly the identities whose role differs
from `client`, and a role-matching identity is served the requested page;
in particular a client-role identity is denied on all three admin routes. -/
theorem C4_deny_iff_role_mismatch (u : User)
    (hu : u.role = "admin" ∨ u.role = "client") :
    (admin_dashboard_route u = access_denied_response ↔ u.role ≠ "admin") ∧
    (admin_clients_route u = access_denied_response ↔ u.role ≠ "admin") ∧
    (add_client_get_route u = access_denied_response ↔ u.role ≠ "admin") ∧
    (client_dashboard_route u =
        { flashes := [], action := RouteAction.redirect RouteId.AdminDashboard } ↔
      u.role ≠ "client") ∧
    (u.role = "admin" →
      admin_dashboard_route u =
        { flashes := [], action := RouteAction.page ("admin/dashboard.html") }) ∧
    (u.role = "client" →
      admin_dashboard_route u = access_denied_response ∧
      admin_clients_route u = access_denied_response ∧
      add_client_get_route u = access_denied_response) := by
  rcases hu with h | h <;>
    simp [admin_dashboard_route, admin_clients_route, add_client_get_route,
      client_dashboard_route, access_denied_response, h]

/-- C4 witness: the concrete client-role identity satisfies the two-role
hypothesis and is denied the admin dashboard. -/
theorem C4_deny_iff_role_mismatch_witness :
    (client_user.role = "admin" ∨ client_user.role = "client") ∧
    admin_dashboard_route client_user = access_denied_response := by
  refine ⟨Or.inr rfl, ?_⟩
  exact ((C4_deny_iff_role_mismatch client_user (Or.inr rfl)).2.2.2.2.2 rfl).1

/-- C5: the client row created by the add-client POST always carries
`admin_id = current_user.id`, and the row depends only on the six form
fields the handler reads: any two forms agreeing on those six fields — in
particular two forms differing only in an owner or admin_id field — yield
identical rows. -/
theorem C5_owner_from_session_only (u : User) (f g : String → Option String)
    (h : ∀ k ∈ (["company_name", "contact_person", "email", "phone", "address",
        "industry"] : List String), f k = g k) :
    (add_client_post u f).admin_id = u.id ∧ add_client_post u f = add_client_post u g := by
  refine ⟨rfl, ?_⟩
  have h1 := h ("company_name") (by decide)
  have h2 := h ("contact_person") (by decide)
  have h3 := h ("email") (by decide)
  have h4 := h ("phone") (by decide)
  have h5 := h ("address") (by decide)
  have h6 := h ("industry") (by decide)
  simp [add_client_post, h1, h2, h3, h4, h5, h6]

/-- A form that smuggles an `admin_id` field in the request payload. -/
def spoofing_form : String → Option String :=
  fun k => if k = "admin_id" then some ("999") else none

/-- The same request payload without the smuggled field. -/
def plain_form : String → Option String :=
  fun _ => none

/-- C5 witness: for the admin with id 7, the spoofing payload and the plain
payload agree on the six read fields, produce the same row, and that row's
owner reference is 7. -/
theorem C5_owner_from_session_only_witness :
    (add_client_post admin_user7 spoofing_form).admin_id = admin_user7.id ∧
    add_client_post admin_user7 spoofing_form = add_client_post admin_user7 plain_form :=
  C5_owner_from_session_only admin_user7 spoofing_form plain_form (by decide)

/-- C6 counterexample: the already-authenticated revisit redirect of the
blueprint login route (src/auth.py line 11) sends an admin identity to the
role-independent `dashboard` endpoint, which differs from
`landingFor admin` — so not every role-to-redirect call site computes
`landingFor`. -/
theorem C6_auth_revisit_not_landingFor :
    auth_login_revisit_redirect admin_user7 = RouteId.Dashboard ∧
    landingFor (admin_user7.role) = RouteId.AdminDashboard ∧
    auth_login_revisit_redirect admin_user7 ≠ landingFor (admin_user7.role) := by
  exact ⟨rfl, rfl, by decide⟩

/-- C6 amended: every role-to-redirect call site in src/app.py computes
`landingFor` — the revisit redirect, the post-login redirect, and the
guard-denial fallback, which sends a denied client-role identity to its own
landing page — and the post-login redirect of src/auth.py does too; but the
revisit redirect of src/auth.py is the constant `dashboard` endpoint,
distinct from both landing pages, for every identity. -/
theorem C6_landingFor_call_sites (u : User) (store : List User) (email password : String) :
    app_login_revisit_redirect u = landingFor u.role ∧
    (∀ v, store.find? (fun w => w.email = email) = some v →
      check_password_hash v.password_hash password = true →
      (app_login_post store email password).redirect_to = landingFor v.role) ∧
    (u.role = "client" →
      admin_dashboard_route u = access_denied_response ∧
      access_denied_response.action = RouteAction.redirect (landingFor u.role)) ∧
    (∀ v, store.find? (fun w => w.email = email) = some v →
      check_password_hash v.password_hash password = true →
      v.is_active = true →
      (auth_login_post store email password).redirect_to = landingFor v.role) ∧
    (auth_login_revisit_redirect u = RouteId.Dashboard ∧
      RouteId.Dashboard ≠ landingFor ("admin") ∧
      RouteId.Dashboard ≠ landingFor ("client")) := by
  refine ⟨rfl, ?_, ?_, ?_, rfl, by decide, by decide⟩
  · intro v hv hpw
    simp [app_login_post, hv, hpw, landingFor]
  · intro h
    constructor
    · simp [admin_dashboard_route, h]
    · simp [access_denied_response, landingFor, h]
  · intro v hv hpw hact
    simp [auth_login_post, hv, hpw, hact, landingFor]

/-- C6 amended witness: at the admin identity with id 7 and a store holding
it, the revisit and post-login call sites of src/app.py both land on
`landingFor admin`. -/
theorem C6_landingFor_call_sites_witness :
    app_login_revisit_redirect admin_user7 = landingFor (admin_user7.role) ∧
    (app_login_post [admin_user7] ("boss@example.com") ("pw3")).redirect_to =
      landingFor (admin_user7.role) := by
  have h := C6_landingFor_call_sites admin_user7 [admin_user7] ("boss@example.com") ("pw3")
  exact ⟨h.1, h.2.1 admin_user7 (by decide) (by decide)⟩

/-- C8: bootstrap creates the seeded administrator — reserved email, admin
role, default password `admin123` — exactly when no user with the reserved
email exists; a store already containing one is returned unchanged, and a
second run is a no-op, so never a second seeded administrator. -/
theorem C8_bootstrap_exactly_once (store : List User) (fid : Nat) :
    (store.find? (fun u => u.email = "admin@company.com") = none →
      initialize_database fid store = store ++ [seeded_admin fid]) ∧
    ((∃ u, store.find? (fun u => u.email = "admin@company.com") = some u) →
      initialize_database fid store = store) ∧
    ((seeded_admin fid).email = "admin@company.com" ∧
      (seeded_admin fid).role = "admin" ∧
      check_password (seeded_admin fid) ("admin123") = true) ∧
    (∀ fid2, initialize_database fid2 (initialize_database fid store) =
      initialize_database fid store) := by
  refine ⟨fun h => by simp [initialize_database, h], ?_, ⟨rfl, rfl, rfl⟩, ?_⟩
  · rintro ⟨u, hu⟩
    simp [initialize_database, hu]
  · intro fid2
    cases h : store.find? (fun u => u.email = "admin@company.com") with
    | some u => simp [initialize_database, h]
    | none =>
        have hfind : (store ++ [seeded_admin fid]).find?
            (fun u => u.email = "admin@company.com") = some (seeded_admin fid) := by
          rw [List.find?_append, h]
          rfl
        simp [initialize_database, h, hfind]

/-- C8 witness: on the empty store the administrator is created, and a
second run leaves the table unchanged. -/
theorem C8_bootstrap_exactly_once_witness :
    initialize_database 1 [] = [seeded_admin 1] ∧
    initialize_database 2 (initialize_database 1 []) = initialize_database 1 [] :=
  ⟨(C8_bootstrap_exactly_once [] 1).1 rfl, (C8_bootstrap_exactly_once [] 1).2.2.2 2⟩

/-- Mapping a row transformation that preserves a projection leaves the
projected list unchanged. -/
theorem map_map_of_preserves {α β : Type} (f : α → α) (g : α → β)
    (h : ∀ a, g (f a) = g a) (l : List α) : (l.map f).map g = l.map g := by
  induction l with
  | nil => rfl
  | cons a t ih => simp [h, ih]

/-- The profile updater never touches a row's id or role. -/
theorem profile_updater_keeps_id_role (uid : Nat) (form : String → Option String)
    (u : User) :
    ((profile_updater uid form u).id, (profile_updater uid form u).role) = (u.id, u.role) := by
  by_cases h : u.id = uid <;> simp [profile_updater, h]

/-- C9: no operation of the routing surface changes any existing user's
role: after every step, the user table projects to the same (id, role)
list it had before. -/
theorem C9_roles_immutable (s : AppState) (op : Operation) :
    ((step s op).users).map (fun u => (u.id, u.role)) =
      s.users.map (fun u => (u.id, u.role)) := by
  cases op with
  | loginPost email password => rfl
  | logout => rfl
  | viewIndex => rfl
  | viewAdminDashboard uid => rfl
  | viewAdminClients uid => rfl
  | addClientPost uid form =>
      simp only [step]
      cases h : s.users.find? (fun u => u.id = uid) with
      | none => rfl
      | some u =>
          by_cases hr : u.role = "admin" <;> simp [hr]
  | viewClientDashboard uid => rfl
  | clientProfilePost uid form =>
      exact map_map_of_preserves _ _ (fun a => profile_updater_keeps_id_role uid form a) s.users

/-- C10: the profile route carries no role test — its response is the same
success redirect for every authenticated identity, whatever its role — its
POST rewrites the user table by the profile updater, and the updater
changes exactly the first_name, last_name and phone of the invoking
identity's own row: every other field of that row, and every other row,
are unchanged. -/
theorem C10_profile_no_role_check_and_frame (u : User) (users : List User)
    (form : String → Option String) :
    ((client_profile_route u users form).1 =
      { flashes := [{ message := "Profile updated successfully!", category := "success" }]
        action := RouteAction.redirect RouteId.ClientProfile }) ∧
    ((client_profile_route u users form).2 = users.map (profile_updater u.id form)) ∧
    (∀ v : User,
      (profile_updater u.id form v).id = v.id ∧
      (profile_updater u.id form v).username = v.username ∧
      (profile_updater u.id form v).email = v.email ∧
      (profile_updater u.id form v).password_hash = v.password_hash ∧
      (profile_updater u.id form v).role = v.role ∧
      (profile_updater u.id form v).is_active = v.is_active ∧
      (profile_updater u.id form v).created_at = v.created_at ∧
      (v.id ≠ u.id → profile_updater u.id form v = v) ∧
      (v.id = u.id →
        (profile_updater u.id form v).first_name = form ("first_name") ∧
        (profile_updater u.id form v).last_name = form ("last_name") ∧
        (profile_updater u.id form v).phone = form ("phone"))) := by
  refine ⟨rfl, rfl, fun v => ?_⟩
  by_cases h : v.id = u.id <;> simp [profile_updater, h]

/-- C10 witness: a row other than the invoker's is untouched, and on the
invoker's own row the first name is taken from the form. -/
theorem C10_profile_no_role_check_and_frame_witness :
    profile_updater client_user.id plain_form admin_user7 = admin_user7 ∧
    (profile_updater admin_user7.id spoofing_form admin_user7).first_name =
      spoofing_form ("first_name") := by
  have h1 := (C10_profile_no_role_check_and_frame client_user [admin_user7] plain_form).2.2 admin_user7
  have h2 := (C10_profile_no_role_check_and_frame admin_user7 [admin_user7] spoofing_form).2.2 admin_user7
  exact ⟨h1.2.2.2.2.2.2.2.1 (by decide), (h2.2.2.2.2.2.2.2.2 rfl).1⟩

end Mgmt
